import Mathlib

/-!
Shallow embedding of `company_formation_server/app.py`: the request model and
its pydantic validators, the six per-jurisdiction document generators, and the
`/form-company` dispatcher.  A generated PDF is modelled as the list of strings
drawn onto the canvas, in drawing order; the date read from `datetime.now()`
is passed explicitly as a `Clock` value holding the two formatted strings the
code extracts from it.
-/

namespace CompanyServer

/-- Python's `\s` character class (`re` on `str`): ASCII whitespace and the
Unicode whitespace characters.  Only ASCII whitespace is exercised by the
claims; the Unicode members are included for fidelity. -/
def pyWhitespace (c : Char) : Bool :=
  c = ' ' || c = '\t' || c = '\n' || c = '\r' || c = '\x0b' || c = '\x0c' ||
  c = '\x1c' || c = '\x1d' || c = '\x1e' || c = '\x1f' || c = '\x85' || c = '\xa0' ||
  c = ' ' || (' ' ≤ c && c ≤ ' ') ||
  c = ' ' || c = ' ' || c = ' ' || c = ' ' || c = '　'

/-- The character class `[a-zA-Z0-9\s,\.\'&]` of `validate_company_name`. -/
def nameAllowedChar (c : Char) : Bool :=
  ('a' ≤ c && c ≤ 'z') || ('A' ≤ c && c ≤ 'Z') || ('0' ≤ c && c ≤ '9') ||
  pyWhitespace c || c = ',' || c = '.' || c = '\'' || c = '&'

/-- Matcher for a regex `[class]+` that must consume the whole input: one or
more characters, each in the class. -/
def plusAll (p : Char → Bool) : List Char → Bool
  | [] => false
  | [c] => p c
  | c :: c₂ :: rest => p c && plusAll p (c₂ :: rest)

/-- `validate_company_name`: `re.match(r'^[a-zA-Z0-9\s,\.\'&]+$', v)`.
Python's `$` also matches just before a trailing newline, but since `\n` is in
the class this adds no accepted strings, so the anchored-`+` matcher is exact. -/
def validate_company_name (v : String) : Bool :=
  plusAll nameAllowedChar v.data

/-- The 56-element `states` set of `validate_state`. -/
def states : List String :=
  ["AL", "AK", "AZ", "AR", "CA", "CO", "CT", "DE", "FL", "GA",
   "HI", "ID", "IL", "IN", "IA", "KS", "KY", "LA", "ME", "MD",
   "MA", "MI", "MN", "MS", "MO", "MT", "NE", "NV", "NH", "NJ",
   "NM", "NY", "NC", "ND", "OH", "OK", "OR", "PA", "RI", "SC",
   "SD", "TN", "TX", "UT", "VT", "VA", "WA", "WV", "WI", "WY",
   "DC", "PR", "GU", "VI", "AS", "MP"]

/-- Python `str.upper()`, character by character.  `Char.toUpper` handles the
ASCII range; Python's `upper()` additionally maps non-ASCII letters, which no
claim exercises. -/
def upperStr (s : String) : String :=
  ⟨s.data.map Char.toUpper⟩

/-- `validate_state`: rejects when `v.upper()` is not in `states`, otherwise
returns `v.upper()`. -/
def validate_state (v : String) : Option String :=
  if upperStr v ∈ states then some (upperStr v) else none

/-- The `company_type` field is `Literal["corporation", "LLC"]`. -/
def isValidCompanyType (t : String) : Bool :=
  t = "corporation" || t = "LLC"

/-- The `CompanyFormation` pydantic model.  `shares` is `Optional[int]` and
`par_value` is `Optional[float]`, modelled as an exact rational. -/
structure CompanyFormation where
  company_name : String
  state_of_formation : String
  company_type : String
  incorporator_name : String
  incorporator_address : Option String := none
  county : Option String := none
  shares : Option Int := none
  par_value : Option ℚ := none
deriving DecidableEq, Repr

/-- Validation performed when a `CompanyFormation(**data)` is constructed:
the two field validators plus the `Literal` check on `company_type`, each
failure raising a `ValidationError` (surfaced as a 400 by the handler).
pydantic collects all field errors into one message; only the success/failure
split and the normalisation of `state_of_formation` matter downstream, so a
single representative message is kept per failing field. -/
def validateFormation (r : CompanyFormation) : Except String CompanyFormation :=
  if validate_company_name r.company_name = false then
    .error "Company name can only contain alphanumeric characters, spaces, commas, periods, apostrophes, and ampersands"
  else
    match validate_state r.state_of_formation with
    | none => .error "Invalid US state or territory"
    | some st =>
      if isValidCompanyType r.company_type then
        .ok { r with state_of_formation := st }
      else
        .error "unexpected value; permitted: 'corporation', 'LLC'"

/-- The two strings the generators read from `datetime.now()`:
`strftime('%d')` and `strftime('%B, %Y')`. -/
structure Clock where
  dayStr : String
  monthYearStr : String
deriving DecidableEq, Repr

/-- Python `x if x else d` on an optional int: `None` and `0` are falsy. -/
def truthyIntOr (o : Option Int) (d : Int) : Int :=
  match o with
  | none => d
  | some n => if n = 0 then d else n

/-- Python `x if x else d` on an optional string: `None` and `""` are falsy. -/
def truthyStrOr (o : Option String) (d : String) : String :=
  match o with
  | none => d
  | some s => if s = "" then d else s

/-- The number of hundredths in `q = q.num / q.den`, rounded to the nearest
integer with ties to even (the rounding of Python's `format`): floor of
`100 * q` plus the half-comparison of the remainder, written with integer
arithmetic on the reduced numerator and denominator. -/
def roundCentsHE (q : ℚ) : Int :=
  let n : Int := 100 * q.num
  let d : Int := (q.den : Int)
  let f : Int := n.fdiv d
  let r : Int := n - f * d
  if 2 * r < d then f
  else if d < 2 * r then f + 1
  else if f % 2 = 0 then f else f + 1

/-- Two-digit rendering of `0 ≤ n < 100`. -/
def twoDigits (n : Int) : String :=
  if n < 10 then "0" ++ toString n else toString n

/-- Python's `f"{x:.2f}"`: the value rendered with exactly two digits after
the decimal point.  Modelled on the exact rational value with round-half-even;
the binary-float double rounding of CPython can differ only on values whose
decimal expansion ties at the third digit, which no claim exercises. -/
def format2 (q : ℚ) : String :=
  let cents := roundCentsHE q
  if cents < 0 then
    "-" ++ toString ((-cents) / 100) ++ "." ++ twoDigits ((-cents) % 100)
  else
    toString (cents / 100) ++ "." ++ twoDigits (cents % 100)

/-- NY generators: `county = company_data.county if company_data.county else
"NEW YORK COUNTY"` followed by `county.upper()` at the use site. -/
def nyCounty (cd : CompanyFormation) : String :=
  upperStr (truthyStrOr cd.county "NEW YORK COUNTY")

/-- The THIRD-clause line drawn by `generate_new_york_articles`:
`f"is: {county.upper()}."`. -/
def nyCountyLine (cd : CompanyFormation) : String :=
  "is: " ++ nyCounty cd ++ "."

/-- The THIRD-clause line drawn by `generate_new_york_llc_certificate`:
`f"to be located is: {county.upper()}."`. -/
def nyLLCCountyLine (cd : CompanyFormation) : String :=
  "to be located is: " ++ nyCounty cd ++ "."

/-- `shares = company_data.shares if company_data.shares else 200`. -/
def nyShares (cd : CompanyFormation) : Int :=
  truthyIntOr cd.shares 200

/-- `par_value = company_data.par_value if company_data.par_value is not None
else 0.0`. -/
def nyParValue (cd : CompanyFormation) : ℚ :=
  cd.par_value.getD 0

/-- The FOURTH-clause share line of `generate_new_york_articles`:
`if par_value > 0` emit `f"{shares} common shares with ${par_value:.2f} par
value per share."` else `f"{shares} common shares without par value."`. -/
def nyShareLine (cd : CompanyFormation) : String :=
  if 0 < nyParValue cd then
    toString (nyShares cd) ++ " common shares with $" ++ format2 (nyParValue cd) ++
      " par value per share."
  else
    toString (nyShares cd) ++ " common shares without par value."

/-- `incorporator_address = company_data.incorporator_address if
company_data.incorporator_address else "123 Main Street, Albany, NY 12207"`. -/
def nyIncorpAddr (cd : CompanyFormation) : String :=
  truthyStrOr cd.incorporator_address "123 Main Street, Albany, NY 12207"

/-- `generate_delaware_articles`: the strings drawn, in drawing order. -/
def generate_delaware_articles (cd : CompanyFormation) (now : Clock) : List String :=
  ["CERTIFICATE OF INCORPORATION",
   "FIRST: The name of this corporation is:",
   cd.company_name,
   "SECOND: Its registered office in the State of Delaware is located at:",
   "251 Little Falls Drive, Wilmington, New Castle County, Delaware 19808",
   "THIRD: The purpose of the corporation is to engage in any lawful act or activity for",
   "which corporations may be organized under the General Corporation Law of Delaware.",
   "FOURTH: The total number of shares of stock which this corporation is authorized",
   "to issue is 1,000 shares of Common Stock with $0.01 par value per share.",
   "IN WITNESS WHEREOF, the undersigned, being the incorporator hereinbefore named,",
   "has executed this Certificate of Incorporation this " ++ now.dayStr ++ " day of",
   now.monthYearStr ++ ".",
   "Incorporator:",
   cd.incorporator_name]

/-- `generate_delaware_llc_certificate`: the strings drawn, in drawing order. -/
def generate_delaware_llc_certificate (cd : CompanyFormation) (now : Clock) : List String :=
  ["CERTIFICATE OF FORMATION",
   "FIRST: The name of the limited liability company is:",
   cd.company_name,
   "SECOND: The address of its registered office in the State of Delaware is:",
   "251 Little Falls Drive, Wilmington, New Castle County, Delaware 19808",
   "THIRD: The name and address of its registered agent in the State of Delaware is:",
   "Corporation Service Company",
   "251 Little Falls Drive",
   "Wilmington, DE 19808",
   "FOURTH: The limited liability company shall be managed by its members.",
   "IN WITNESS WHEREOF, the undersigned has executed this Certificate of Formation this " ++
     now.dayStr ++ " day of",
   now.monthYearStr ++ ".",
   "Authorized Person:",
   cd.incorporator_name]

/-- `generate_california_articles`: the strings drawn, in drawing order. -/
def generate_california_articles (cd : CompanyFormation) (now : Clock) : List String :=
  ["ARTICLES OF INCORPORATION",
   "ARTICLE I: The name of this corporation is:",
   cd.company_name,
   "ARTICLE II: The purpose of the corporation is to engage in any lawful act or activity",
   "for which a corporation may be organized under the General Corporation Law of California.",
   "ARTICLE III: The name and address in California of the corporation's initial agent for service of process is:",
   "California Registered Agent, Inc.",
   "123 Main Street",
   "Los Angeles, CA 90001",
   "IN WITNESS WHEREOF, the undersigned, being the incorporator hereinbefore named,",
   "has executed these Articles of Incorporation this " ++ now.dayStr ++ " day of",
   now.monthYearStr ++ ".",
   "Incorporator:",
   cd.incorporator_name]

/-- `generate_california_llc_certificate`: the strings drawn, in drawing order. -/
def generate_california_llc_certificate (cd : CompanyFormation) (now : Clock) : List String :=
  ["ARTICLES OF ORGANIZATION",
   "ARTICLE I: The name of the limited liability company is:",
   cd.company_name,
   "ARTICLE II: The purpose of the limited liability company is to engage in any lawful business.",
   "ARTICLE III: The name and address in California of the LLC's initial agent for service of process is:",
   "California Registered Agent, Inc.",
   "123 Main Street",
   "Los Angeles, CA 90001",
   "IN WITNESS WHEREOF, the undersigned has executed these Articles of Organization this " ++
     now.dayStr ++ " day of",
   now.monthYearStr ++ ".",
   "Authorized Person:",
   cd.incorporator_name]

/-- `generate_new_york_articles`: the strings drawn, in drawing order.
No date is drawn: this generator never calls `datetime.now()`. -/
def generate_new_york_articles (cd : CompanyFormation) : List String :=
  ["CERTIFICATE OF INCORPORATION",
   "OF",
   cd.company_name,
   "Under Section 402 of the Business Corporation Law",
   "FIRST:",
   "The name of this corporation is:",
   cd.company_name,
   "SECOND:",
   "The purpose of the corporation is to engage in any lawful act or activity for which",
   "a corporation may be organized under the Business Corporation Law. The corporation is not",
   "formed to engage in any act or activity requiring the consent or approval of any state official,",
   "department, board, agency or other body without such consent or approval first being obtained.",
   "THIRD:",
   "The county, within this state, in which the office of the corporation is to be located",
   nyCountyLine cd,
   "FOURTH:",
   "The corporation shall have authority to issue one class of shares consisting of",
   nyShareLine cd,
   "FIFTH:",
   "The Secretary of State is designated as agent of the corporation upon whom process",
   "against the corporation may be served.",
   "The post office address to which the Secretary of State shall mail a copy of any process",
   "against the corporation served upon the Secretary of State by personal delivery is:",
   nyIncorpAddr cd,
   "Incorporator:",
   "/s/ " ++ cd.incorporator_name,
   nyIncorpAddr cd,
   "Filer's Name and Address:",
   "/s/ " ++ cd.incorporator_name,
   nyIncorpAddr cd]

/-- `generate_new_york_llc_certificate`: the strings drawn, in drawing order.
No date is drawn: this generator never calls `datetime.now()`. -/
def generate_new_york_llc_certificate (cd : CompanyFormation) : List String :=
  ["ARTICLES OF ORGANIZATION",
   "OF",
   cd.company_name,
   "Under Section 203 of the Limited Liability Company Law",
   "FIRST:",
   "The name of the limited liability company is:",
   cd.company_name,
   "SECOND:",
   "The purpose of the limited liability company is to engage in any lawful act or activity",
   "for which limited liability companies may be organized under the Limited Liability Company Law.",
   "THIRD:",
   "The county, within this state, in which the office of the limited liability company is",
   nyLLCCountyLine cd,
   "FOURTH:",
   "The Secretary of State is designated as agent of the limited liability company upon",
   "whom process against it may be served.",
   "The post office address to which the Secretary of State shall mail a copy of any process",
   "against the limited liability company served upon the Secretary of State is:",
   nyIncorpAddr cd,
   "Organizer:",
   "/s/ " ++ cd.incorporator_name,
   nyIncorpAddr cd,
   "Filer's Name and Address:",
   "/s/ " ++ cd.incorporator_name,
   nyIncorpAddr cd]

/-- Outcome of the `/form-company` handler: a PDF download, or a JSON error
body with an HTTP status code. -/
inductive Response where
  | pdf (doc : List String)
  | err (code : Nat) (msg : String)
deriving DecidableEq, Repr

/-- The non-JSON branch of `form_company` rebuilds the dict from only the four
required form fields; the optional fields are never read from the form. -/
def formExtract (r : CompanyFormation) : CompanyFormation :=
  { company_name := r.company_name,
    state_of_formation := r.state_of_formation,
    company_type := r.company_type,
    incorporator_name := r.incorporator_name,
    incorporator_address := none, county := none, shares := none, par_value := none }

/-- The `(state, type)` dispatch block of the `form_company` handler, run on
validated data. -/
def dispatch (cd : CompanyFormation) (now : Clock) : Response :=
  if cd.state_of_formation = "DE" then
      if cd.company_type = "corporation" then .pdf (generate_delaware_articles cd now)
      else if cd.company_type = "LLC" then .pdf (generate_delaware_llc_certificate cd now)
      else .err 400 "Unsupported company type"
    else if cd.state_of_formation = "CA" then
      if cd.company_type = "corporation" then .pdf (generate_california_articles cd now)
      else if cd.company_type = "LLC" then .pdf (generate_california_llc_certificate cd now)
      else .err 400 "Unsupported company type"
    else if cd.state_of_formation = "NY" then
      if cd.company_type = "corporation" then .pdf (generate_new_york_articles cd)
      else if cd.company_type = "LLC" then .pdf (generate_new_york_llc_certificate cd)
      else .err 400 "Unsupported company type"
    else
      .err 400 "Only Delaware, California, and New York entities are supported at this time"

/-- The `/form-company` POST handler: parse (JSON or form), validate, dispatch
on `(state_of_formation, company_type)`, and answer a PDF or a 400 error.
A raised `ValidationError` is caught by the surrounding `except Exception`
and also answered as a 400. -/
def form_company (isJson : Bool) (raw : CompanyFormation) (now : Clock) : Response :=
  match validateFormation (if isJson then raw else formExtract raw) with
  | .error e => .err 400 e
  | .ok cd => dispatch cd now

/-- A string appears in the document's extractable text: it occurs as a
contiguous substring of one of the drawn strings. -/
def docContains (doc : List String) (s : String) : Prop :=
  ∃ line ∈ doc, s.data <:+: line.data

instance (doc : List String) (s : String) : Decidable (docContains doc s) :=
  decidable_of_iff (∃ line ∈ doc, s.data <:+: line.data) (by rw [docContains])

/-- The six (state, entity-type) combinations the dispatcher renders. -/
def supportedCombo (st ty : String) : Prop :=
  (st = "DE" ∨ st = "CA" ∨ st = "NY") ∧ (ty = "corporation" ∨ ty = "LLC")

instance (st ty : String) : Decidable (supportedCombo st ty) :=
  decidable_of_iff
    ((st = "DE" ∨ st = "CA" ∨ st = "NY") ∧ (ty = "corporation" ∨ ty = "LLC"))
    (by rw [supportedCombo])

/-! ## Helper lemmas -/

theorem plusAll_eq_true (p : Char → Bool) :
    ∀ l : List Char, plusAll p l = true ↔ l ≠ [] ∧ ∀ c ∈ l, p c = true
  | [] => by simp [plusAll]
  | [c] => by simp [plusAll]
  | c :: c₂ :: rest => by
    rw [plusAll, Bool.and_eq_true, plusAll_eq_true p (c₂ :: rest)]
    simp [and_assoc]

theorem validateFormation_ok {r cd : CompanyFormation}
    (h : validateFormation r = .ok cd) :
    cd = { r with state_of_formation := upperStr r.state_of_formation } ∧
    upperStr r.state_of_formation ∈ states ∧
    validate_company_name r.company_name = true ∧
    isValidCompanyType r.company_type = true := by
  rw [validateFormation] at h
  split at h
  · simp at h
  · rename_i hname
    split at h
    · simp at h
    · rename_i st hst
      split at h
      · rename_i hty
        rw [validate_state] at hst
        split at hst
        · rename_i hmem
          obtain rfl : upperStr r.state_of_formation = st := by
            injection hst
          refine ⟨?_, hmem, by simpa using hname, hty⟩
          injection h with h2
          exact h2.symm
        · exact absurd hst (by simp)
      · simp at h

theorem formExtract_required (r : CompanyFormation) :
    (formExtract r).company_name = r.company_name ∧
    (formExtract r).state_of_formation = r.state_of_formation ∧
    (formExtract r).company_type = r.company_type ∧
    (formExtract r).incorporator_name = r.incorporator_name :=
  ⟨rfl, rfl, rfl, rfl⟩

theorem docContains_of_mem {l : List String} {s : String} (h : s ∈ l) :
    docContains l s :=
  ⟨s, h, List.infix_refl _⟩

theorem infix_slash (n : String) : n.data <:+: ("/s/ " ++ n).data := by
  rw [String.data_append]
  exact (List.suffix_append _ _).isInfix

theorem infix_mid (a b c : String) : b.data <:+: (a ++ b ++ c).data := by
  rw [String.data_append, String.data_append]
  exact List.infix_append _ _ _

theorem append_mid_cancel {a b x y : String} (h : a ++ x ++ b = a ++ y ++ b) :
    x = y := by
  have h1 := congrArg String.data h
  rw [String.data_append, String.data_append, String.data_append,
    String.data_append] at h1
  exact String.ext (List.append_cancel_left (List.append_cancel_right h1))

theorem append_last_cancel {b x y : String} (h : x ++ b = y ++ b) : x = y := by
  have h1 := congrArg String.data h
  rw [String.data_append, String.data_append] at h1
  exact String.ext (List.append_cancel_right h1)

theorem ne_empty_iff_data_ne_nil (v : String) : v ≠ "" ↔ v.data ≠ [] :=
  not_congr ⟨fun h => h ▸ rfl, fun h => String.ext h⟩

/-! ## Claims -/

/-- C7 (counterexample): the empty company name contains no character outside
the allowed set, yet `validate_company_name` rejects it (the regex requires at
least one character). -/
theorem company_name_empty_rejected_cex :
    "".data.all nameAllowedChar = true ∧ validate_company_name "" = false := by
  decide

/-- C7 (amended): `validate_company_name` accepts a company name iff it is
nonempty and every character is a letter, digit, whitespace, comma, period,
apostrophe, or ampersand. -/
theorem company_name_validation_charset (v : String) :
    validate_company_name v = true ↔
      v ≠ "" ∧ ∀ c ∈ v.data, nameAllowedChar c = true := by
  rw [validate_company_name, plusAll_eq_true, ne_empty_iff_data_ne_nil]

/-- C8 (counterexample): `"de"` is not a member of the enumerated `states`
set, yet `validate_state` accepts it (the comparison uppercases first). -/
theorem state_lowercase_accepted_cex :
    "de" ∉ states ∧ validate_state "de" = some "DE" := by
  decide

/-- C8 (amended): `validate_state` accepts exactly the strings whose
uppercasing lies in the 56-element `states` set (so every enumerated code is
accepted, and the match is case-insensitive), and `isValidCompanyType`
accepts exactly `"corporation"` and `"LLC"`. -/
theorem state_and_type_validation (v t : String) :
    ((validate_state v).isSome ↔ upperStr v ∈ states) ∧
    (isValidCompanyType t = true ↔ t = "corporation" ∨ t = "LLC") ∧
    (∀ s ∈ states, validate_state s = some s) := by
  refine ⟨?_, by simp [isValidCompanyType], by decide⟩
  by_cases h : upperStr v ∈ states <;> simp [validate_state, h]

/-- C8 (witness): the theorem applied to the concrete code `"DE"`. -/
theorem state_and_type_validation_witness :
    validate_state "DE" = some "DE" :=
  (state_and_type_validation "DE" "corporation").2.2 "DE" (by decide)

/-- A NY corporation request supplying a negative par value. -/
def parNegInput : CompanyFormation :=
  { company_name := "Acme Corp", state_of_formation := "NY",
    company_type := "corporation", incorporator_name := "John Smith",
    par_value := some (-1) }

/-- A NY corporation request supplying a positive par value. -/
def parPosInput : CompanyFormation :=
  { company_name := "Acme Corp", state_of_formation := "NY",
    company_type := "corporation", incorporator_name := "John Smith",
    shares := some 1000, par_value := some 3 }

/-- C1 (counterexample): a supplied par value of `-1` is nonzero, yet the
FOURTH-clause line of the generated New York articles reads
"without par value" (the code tests `par_value > 0`, not `par_value != 0`). -/
theorem ny_negative_par_value_cex :
    parNegInput.par_value = some (-1) ∧ (-1 : ℚ) ≠ 0 ∧
    nyShareLine parNegInput = "200 common shares without par value." ∧
    nyShareLine parNegInput ∈ generate_new_york_articles parNegInput := by
  refine ⟨rfl, by decide, by decide, ?_⟩
  simp [generate_new_york_articles]

/-- C1 (amended): the FOURTH-clause share line of the New York articles is
drawn in the document; a positive effective par value renders
"$X.XX par value per share" with two decimal places, and a zero-or-negative
effective par value (in particular a par value of 0) renders
"without par value". -/
theorem ny_par_value_clause (cd : CompanyFormation) :
    nyShareLine cd ∈ generate_new_york_articles cd ∧
    (0 < nyParValue cd →
      nyShareLine cd = toString (nyShares cd) ++ " common shares with $" ++
        format2 (nyParValue cd) ++ " par value per share.") ∧
    (nyParValue cd ≤ 0 →
      nyShareLine cd =
        toString (nyShares cd) ++ " common shares without par value.") := by
  refine ⟨by simp [generate_new_york_articles], fun h => ?_, fun h => ?_⟩
  · rw [nyShareLine, if_pos h]
  · rw [nyShareLine, if_neg (not_lt.mpr h)]

/-- C1 (witness): the theorem applied to a request with par value 3 and 1000
shares. -/
theorem ny_par_value_clause_witness :
    0 < nyParValue parPosInput ∧
    nyShareLine parPosInput =
      "1000 common shares with $3.00 par value per share." := by
  refine ⟨by decide, ?_⟩
  rw [(ny_par_value_clause parPosInput).2.1 (by decide)]
  decide

/-- A NY corporation request supplying a mixed-case county. -/
def countyInput : CompanyFormation :=
  { company_name := "Acme Corp", state_of_formation := "NY",
    company_type := "corporation", incorporator_name := "John Smith",
    county := some "Albany County" }

set_option maxRecDepth 4000 in
/-- C6 (counterexample): with county supplied as `"Albany County"`, the
THIRD-clause line reads "is: ALBANY COUNTY." and the supplied string does not
occur anywhere in the generated document: the county is uppercased, not
substituted verbatim. -/
theorem ny_county_not_verbatim_cex :
    countyInput.county = some "Albany County" ∧
    nyCountyLine countyInput = "is: ALBANY COUNTY." ∧
    nyCountyLine countyInput ∈ generate_new_york_articles countyInput ∧
    ¬ docContains (generate_new_york_articles countyInput) "Albany County" := by
  refine ⟨rfl, by decide, ?_, by decide⟩
  simp [generate_new_york_articles]

/-- C6 (amended): a supplied nonempty county is substituted after
uppercasing: the THIRD-clause line of each New York document is the fixed
clause text around `county.upper()`, and the uppercased county appears in the
document text. -/
theorem ny_county_upper_substitution (cd : CompanyFormation) (c : String)
    (h : cd.county = some c) (hne : c ≠ "") :
    nyCountyLine cd = "is: " ++ upperStr c ++ "." ∧
    docContains (generate_new_york_articles cd) (upperStr c) ∧
    nyLLCCountyLine cd = "to be located is: " ++ upperStr c ++ "." ∧
    docContains (generate_new_york_llc_certificate cd) (upperStr c) := by
  have hc : nyCounty cd = upperStr c := by
    rw [nyCounty, h, truthyStrOr, if_neg hne]
  have h1 : nyCountyLine cd = "is: " ++ upperStr c ++ "." := by
    rw [nyCountyLine, hc]
  have h2 : nyLLCCountyLine cd = "to be located is: " ++ upperStr c ++ "." := by
    rw [nyLLCCountyLine, hc]
  refine ⟨h1, ⟨nyCountyLine cd, by simp [generate_new_york_articles], ?_⟩,
    h2, ⟨nyLLCCountyLine cd, by simp [generate_new_york_llc_certificate], ?_⟩⟩
  · rw [h1]; exact infix_mid _ _ _
  · rw [h2]; exact infix_mid _ _ _

/-- C6 (witness): the theorem applied to the county `"Albany County"`. -/
theorem ny_county_upper_substitution_witness :
    nyCountyLine countyInput = "is: " ++ upperStr "Albany County" ++ "." ∧
    docContains (generate_new_york_articles countyInput)
      (upperStr "Albany County") :=
  ⟨(ny_county_upper_substitution countyInput "Albany County" rfl (by decide)).1,
   (ny_county_upper_substitution countyInput "Albany County" rfl (by decide)).2.1⟩

/-- C9 (theorem): a supplied share count of 0 is falsy in Python, so the
share line renders the default 200 exactly as when shares is omitted;
likewise a supplied empty-string county is falsy and the THIRD clause renders
the default "NEW YORK COUNTY". -/
theorem ny_falsy_zero_and_empty_defaults (cd : CompanyFormation) :
    (cd.shares = some 0 →
      nyShares cd = 200 ∧
      nyShareLine cd = nyShareLine { cd with shares := none }) ∧
    (cd.county = some "" →
      nyCountyLine cd = "is: NEW YORK COUNTY." ∧
      nyCountyLine cd = nyCountyLine { cd with county := none }) := by
  constructor
  · intro h
    have h1 : nyShares cd = 200 := by rw [nyShares, h]; rfl
    have h2 : nyShares { cd with shares := none } = 200 := rfl
    have h3 : nyParValue { cd with shares := none } = nyParValue cd := rfl
    exact ⟨h1, by rw [nyShareLine, nyShareLine, h1, h2, h3]⟩
  · intro h
    have h1 : nyCounty cd = "NEW YORK COUNTY" := by
      rw [nyCounty, h]
      decide
    have h2 : nyCounty { cd with county := none } = "NEW YORK COUNTY" := rfl
    refine ⟨?_, ?_⟩
    · rw [nyCountyLine, h1]
      decide
    · rw [nyCountyLine, nyCountyLine, h1, h2]

/-- A NY corporation request supplying `shares = 0` and an empty county. -/
def falsyInput : CompanyFormation :=
  { company_name := "Acme Corp", state_of_formation := "NY",
    company_type := "corporation", incorporator_name := "John Smith",
    county := some "", shares := some 0 }

/-- C9 (witness): the theorem applied to a request with `shares = 0` and
`county = ""`. -/
theorem ny_falsy_zero_and_empty_defaults_witness :
    nyShares falsyInput = 200 ∧
    nyCountyLine falsyInput = "is: NEW YORK COUNTY." :=
  ⟨((ny_falsy_zero_and_empty_defaults falsyInput).1 rfl).1,
   ((ny_falsy_zero_and_empty_defaults falsyInput).2 rfl).1⟩

theorem de_articles_names (cd : CompanyFormation) (now : Clock) :
    docContains (generate_delaware_articles cd now) cd.company_name ∧
    docContains (generate_delaware_articles cd now) cd.incorporator_name :=
  ⟨docContains_of_mem (by simp [generate_delaware_articles]),
   docContains_of_mem (by simp [generate_delaware_articles])⟩

theorem de_llc_names (cd : CompanyFormation) (now : Clock) :
    docContains (generate_delaware_llc_certificate cd now) cd.company_name ∧
    docContains (generate_delaware_llc_certificate cd now) cd.incorporator_name :=
  ⟨docContains_of_mem (by simp [generate_delaware_llc_certificate]),
   docContains_of_mem (by simp [generate_delaware_llc_certificate])⟩

theorem ca_articles_names (cd : CompanyFormation) (now : Clock) :
    docContains (generate_california_articles cd now) cd.company_name ∧
    docContains (generate_california_articles cd now) cd.incorporator_name :=
  ⟨docContains_of_mem (by simp [generate_california_articles]),
   docContains_of_mem (by simp [generate_california_articles])⟩

theorem ca_llc_names (cd : CompanyFormation) (now : Clock) :
    docContains (generate_california_llc_certificate cd now) cd.company_name ∧
    docContains (generate_california_llc_certificate cd now) cd.incorporator_name :=
  ⟨docContains_of_mem (by simp [generate_california_llc_certificate]),
   docContains_of_mem (by simp [generate_california_llc_certificate])⟩

theorem ny_articles_names (cd : CompanyFormation) :
    docContains (generate_new_york_articles cd) cd.company_name ∧
    docContains (generate_new_york_articles cd) cd.incorporator_name :=
  ⟨docContains_of_mem (by simp [generate_new_york_articles]),
   ⟨"/s/ " ++ cd.incorporator_name, by simp [generate_new_york_articles],
    infix_slash _⟩⟩

theorem ny_llc_names (cd : CompanyFormation) :
    docContains (generate_new_york_llc_certificate cd) cd.company_name ∧
    docContains (generate_new_york_llc_certificate cd) cd.incorporator_name :=
  ⟨docContains_of_mem (by simp [generate_new_york_llc_certificate]),
   ⟨"/s/ " ++ cd.incorporator_name,
    by simp [generate_new_york_llc_certificate], infix_slash _⟩⟩

/-- Any PDF produced by `form_company` comes from `dispatch` on the validated
data, whose required fields coincide with those of the raw request. -/
theorem form_company_pdf_inv {isJson : Bool} {raw : CompanyFormation}
    {now : Clock} {doc : List String}
    (h : form_company isJson raw now = Response.pdf doc) :
    ∃ cd, dispatch cd now = Response.pdf doc ∧
      cd.company_name = raw.company_name ∧
      cd.state_of_formation = upperStr raw.state_of_formation ∧
      cd.company_type = raw.company_type ∧
      cd.incorporator_name = raw.incorporator_name ∧
      isValidCompanyType cd.company_type = true := by
  rw [form_company] at h
  have hf1 : (if isJson then raw else formExtract raw).company_name =
      raw.company_name := by cases isJson <;> rfl
  have hf2 : (if isJson then raw else formExtract raw).state_of_formation =
      raw.state_of_formation := by cases isJson <;> rfl
  have hf3 : (if isJson then raw else formExtract raw).company_type =
      raw.company_type := by cases isJson <;> rfl
  have hf4 : (if isJson then raw else formExtract raw).incorporator_name =
      raw.incorporator_name := by cases isJson <;> rfl
  cases hval : validateFormation (if isJson then raw else formExtract raw) with
  | error e => rw [hval] at h; simp at h
  | ok cd =>
    rw [hval] at h
    obtain ⟨hcd, -, -, hty⟩ := validateFormation_ok hval
    subst hcd
    exact ⟨_, h, hf1, congrArg upperStr hf2, hf3, hf4, hf3 ▸ hty⟩

/-- C5 (theorem): every PDF answered by `/form-company` contains the supplied
company name and the supplied incorporator name verbatim in its text. -/
theorem names_appear_verbatim (isJson : Bool) (raw : CompanyFormation)
    (now : Clock) (doc : List String)
    (h : form_company isJson raw now = Response.pdf doc) :
    docContains doc raw.company_name ∧ docContains doc raw.incorporator_name := by
  obtain ⟨cd, hd, hname, -, -, hinc, -⟩ := form_company_pdf_inv h
  rw [dispatch] at hd
  rw [← hname, ← hinc]
  split_ifs at hd <;>
    (injection hd with hdoc; subst hdoc) <;>
    first
      | exact de_articles_names _ _
      | exact de_llc_names _ _
      | exact ca_articles_names _ _
      | exact ca_llc_names _ _
      | exact ny_articles_names _
      | exact ny_llc_names _

/-- A valid Delaware corporation request used to instantiate handler-level
theorems. -/
def deInput : CompanyFormation :=
  { company_name := "Acme Corp, Inc.", state_of_formation := "DE",
    company_type := "corporation", incorporator_name := "John Smith" }

/-- A fixed clock value used to instantiate handler-level theorems. -/
def clock1 : Clock := { dayStr := "01", monthYearStr := "January, 2026" }

/-- C5 (witness): the theorem applied to a concrete Delaware corporation
request. -/
theorem names_appear_verbatim_witness :
    docContains (generate_delaware_articles deInput clock1) "Acme Corp, Inc." ∧
    docContains (generate_delaware_articles deInput clock1) "John Smith" :=
  names_appear_verbatim true deInput clock1 _ (by decide)

theorem form_company_eq_dispatch {isJson : Bool} {raw cd : CompanyFormation}
    {now : Clock}
    (hval : validateFormation (if isJson then raw else formExtract raw) = .ok cd) :
    form_company isJson raw now = dispatch cd now := by
  rw [form_company, hval]

/-- C3 (theorem): whenever the uppercased state and the company type do not
form one of the six supported combinations, `/form-company` answers a 400
JSON error (and hence never a PDF). -/
theorem unsupported_combo_yields_error (isJson : Bool)
    (raw : CompanyFormation) (now : Clock)
    (h : ¬ supportedCombo (upperStr raw.state_of_formation) raw.company_type) :
    ∃ msg, form_company isJson raw now = Response.err 400 msg := by
  cases hval : validateFormation (if isJson then raw else formExtract raw) with
  | error e => exact ⟨e, by rw [form_company, hval]⟩
  | ok cd =>
    obtain ⟨hcd, -, -, hty⟩ := validateFormation_ok hval
    have hstate : cd.state_of_formation = upperStr raw.state_of_formation := by
      rw [hcd]
      exact congrArg upperStr (by cases isJson <;> rfl)
    have htyraw : isValidCompanyType raw.company_type = true := by
      have hdt : (if isJson then raw else formExtract raw).company_type =
          raw.company_type := by cases isJson <;> rfl
      rw [← hdt]
      exact hty
    have hty2 : raw.company_type = "corporation" ∨ raw.company_type = "LLC" := by
      simpa [isValidCompanyType] using htyraw
    have hs : ¬(upperStr raw.state_of_formation = "DE" ∨
        upperStr raw.state_of_formation = "CA" ∨
        upperStr raw.state_of_formation = "NY") :=
      fun hs' => h ⟨hs', hty2⟩
    push_neg at hs
    obtain ⟨h1, h2, h3⟩ := hs
    refine ⟨"Only Delaware, California, and New York entities are supported at this time", ?_⟩
    rw [form_company_eq_dispatch hval, dispatch, hstate,
      if_neg h1, if_neg h2, if_neg h3]

/-- A valid request for a state outside the three supported jurisdictions. -/
def txInput : CompanyFormation :=
  { company_name := "Lone Star Co.", state_of_formation := "TX",
    company_type := "corporation", incorporator_name := "Jane Doe" }

/-- C3 (witness): the theorem applied to a Texas corporation request. -/
theorem unsupported_combo_yields_error_witness :
    ∃ msg, form_company true txInput clock1 = Response.err 400 msg :=
  unsupported_combo_yields_error true txInput clock1 (by decide)

/-- C2 (theorem): a valid New York request omitting county, shares, and
par_value yields a document whose text contains the default county
"NEW YORK COUNTY", and — when the request is for a corporation, the only NY
document with a share clause — the share clause "200 common shares without
par value". -/
theorem ny_omitted_fields_defaults (isJson : Bool) (raw : CompanyFormation)
    (now : Clock) (doc : List String)
    (h : form_company isJson raw now = Response.pdf doc)
    (hst : upperStr raw.state_of_formation = "NY")
    (hc : raw.county = none) (hs : raw.shares = none)
    (hp : raw.par_value = none) :
    docContains doc "NEW YORK COUNTY" ∧
    (raw.company_type = "corporation" →
      "200 common shares without par value." ∈ doc) := by
  cases hval : validateFormation (if isJson then raw else formExtract raw) with
  | error e =>
    rw [form_company, hval] at h
    simp at h
  | ok cd =>
    have hd : dispatch cd now = Response.pdf doc :=
      (form_company_eq_dispatch hval).symm.trans h
    obtain ⟨hcd, -, -, hty⟩ := validateFormation_ok hval
    have hstate : cd.state_of_formation = "NY" := by
      rw [hcd]
      have : (if isJson then raw else formExtract raw).state_of_formation =
          raw.state_of_formation := by cases isJson <;> rfl
      show upperStr (if isJson then raw else formExtract raw).state_of_formation = "NY"
      rw [this, hst]
    have hcc : cd.county = none := by
      rw [hcd]
      show (if isJson then raw else formExtract raw).county = none
      cases isJson
      · rfl
      · exact hc
    have hsc : cd.shares = none := by
      rw [hcd]
      show (if isJson then raw else formExtract raw).shares = none
      cases isJson
      · rfl
      · exact hs
    have hpc : cd.par_value = none := by
      rw [hcd]
      show (if isJson then raw else formExtract raw).par_value = none
      cases isJson
      · rfl
      · exact hp
    have htyeq : cd.company_type = raw.company_type := by
      rw [hcd]
      cases isJson <;> rfl
    have hcl : nyCountyLine cd = "is: NEW YORK COUNTY." := by
      rw [nyCountyLine, nyCounty, hcc]
      decide
    have hll : nyLLCCountyLine cd = "to be located is: NEW YORK COUNTY." := by
      rw [nyLLCCountyLine, nyCounty, hcc]
      decide
    have hshl : nyShareLine cd = "200 common shares without par value." := by
      rw [nyShareLine, nyShares, nyParValue, hsc, hpc]
      decide
    rw [dispatch, hstate, if_neg (by decide), if_neg (by decide),
      if_pos (by decide : ("NY" : String) = "NY")] at hd
    by_cases hct : cd.company_type = "corporation"
    · rw [if_pos hct] at hd
      injection hd with hdoc
      subst hdoc
      refine ⟨⟨nyCountyLine cd, by simp [generate_new_york_articles],
        by rw [hcl]; decide⟩, fun _ => ?_⟩
      rw [← hshl]
      simp [generate_new_york_articles]
    · rw [if_neg hct] at hd
      by_cases hlt : cd.company_type = "LLC"
      · rw [if_pos hlt] at hd
        injection hd with hdoc
        subst hdoc
        refine ⟨⟨nyLLCCountyLine cd, by simp [generate_new_york_llc_certificate],
          by rw [hll]; decide⟩, fun hcorp => ?_⟩
        exact absurd (hcorp.symm.trans (htyeq.symm.trans hlt)) (by decide)
      · rw [if_neg hlt] at hd
        simp at hd

/-- A valid New York corporation request omitting county, shares, and
par_value. -/
def nyOmittedInput : CompanyFormation :=
  { company_name := "Empire State Corp.", state_of_formation := "NY",
    company_type := "corporation", incorporator_name := "Sarah Williams" }

/-- C2 (witness): the theorem applied to a concrete NY corporation request
with the optional fields omitted. -/
theorem ny_omitted_fields_defaults_witness :
    docContains (generate_new_york_articles nyOmittedInput) "NEW YORK COUNTY" ∧
    (nyOmittedInput.company_type = "corporation" →
      "200 common shares without par value." ∈
        generate_new_york_articles nyOmittedInput) :=
  ny_omitted_fields_defaults true nyOmittedInput clock1 _ (by decide)
    (by decide) rfl rfl rfl

/-- A NY corporation request supplying county, shares, and par_value, used to
compare the JSON and form-encoded code paths. -/
def optionalFieldsInput : CompanyFormation :=
  { company_name := "Empire State Corp.", state_of_formation := "NY",
    company_type := "corporation", incorporator_name := "Sarah Williams",
    incorporator_address := some "418 Broadway, Albany, NY 12207",
    county := some "KINGS COUNTY", shares := some 500, par_value := some 1 }

set_option maxRecDepth 8000 in
/-- C4 (counterexample): the same request sent form-encoded and as JSON
produces different documents: the form branch reads only the four required
fields, so the supplied county, shares, and par_value are dropped and the NY
defaults are rendered instead. -/
theorem form_optional_fields_dropped_cex :
    form_company false optionalFieldsInput clock1 =
      Response.pdf (generate_new_york_articles (formExtract optionalFieldsInput)) ∧
    form_company true optionalFieldsInput clock1 =
      Response.pdf (generate_new_york_articles optionalFieldsInput) ∧
    "200 common shares without par value." ∈
      generate_new_york_articles (formExtract optionalFieldsInput) ∧
    "500 common shares with $1.00 par value per share." ∈
      generate_new_york_articles optionalFieldsInput ∧
    form_company false optionalFieldsInput clock1 ≠
      form_company true optionalFieldsInput clock1 := by
  refine ⟨by decide, by decide, by decide, by decide, by decide⟩

/-- C4 (amended): a form-encoded POST passes only the four required fields to
the model: it behaves exactly like a JSON request with the optional fields
stripped, and its outcome is unchanged by whatever optional fields were
supplied in the form. -/
theorem form_post_ignores_optional_fields (raw raw' : CompanyFormation)
    (now : Clock)
    (h1 : raw'.company_name = raw.company_name)
    (h2 : raw'.state_of_formation = raw.state_of_formation)
    (h3 : raw'.company_type = raw.company_type)
    (h4 : raw'.incorporator_name = raw.incorporator_name) :
    form_company false raw now = form_company true (formExtract raw) now ∧
    form_company false raw now = form_company false raw' now := by
  have he : formExtract raw' = formExtract raw := by
    rw [formExtract, formExtract, h1, h2, h3, h4]
  constructor
  · rfl
  · show form_company false raw now = form_company false raw' now
    rw [form_company, form_company]
    show (match validateFormation (formExtract raw) with
      | .error e => Response.err 400 e
      | .ok cd => dispatch cd now) =
      (match validateFormation (formExtract raw') with
      | .error e => Response.err 400 e
      | .ok cd => dispatch cd now)
    rw [he]

/-- C4 (witness): the theorem applied to `optionalFieldsInput` and the same
request with the optional fields already removed. -/
theorem form_post_ignores_optional_fields_witness :
    form_company false optionalFieldsInput clock1 =
      form_company true (formExtract optionalFieldsInput) clock1 ∧
    form_company false optionalFieldsInput clock1 =
      form_company false (formExtract optionalFieldsInput) clock1 :=
  form_post_ignores_optional_fields optionalFieldsInput
    (formExtract optionalFieldsInput) clock1 rfl rfl rfl rfl

/-- A second clock value, differing from `clock1` in both components. -/
def clock2 : Clock := { dayStr := "15", monthYearStr := "March, 2027" }

set_option maxRecDepth 8000 in
/-- C10 (counterexample): a New York corporation request rendered under two
different clocks yields the identical response: the NY generators never read
the clock, so NY documents are a pure function of the request. -/
theorem ny_documents_clock_independent_cex :
    clock1 ≠ clock2 ∧
    form_company true nyOmittedInput clock1 =
      form_company true nyOmittedInput clock2 := by
  refine ⟨by decide, by decide⟩

/-- C10 (amended): the Delaware and California generators draw the current
day and month-year strings, so under clocks differing in either component
they produce different documents; the New York handler's response does not
depend on the clock at all. -/
theorem date_in_de_ca_documents_only (cd : CompanyFormation) (t t' : Clock)
    (h : t.dayStr ≠ t'.dayStr ∨ t.monthYearStr ≠ t'.monthYearStr) :
    generate_delaware_articles cd t ≠ generate_delaware_articles cd t' ∧
    generate_delaware_llc_certificate cd t ≠
      generate_delaware_llc_certificate cd t' ∧
    generate_california_articles cd t ≠ generate_california_articles cd t' ∧
    generate_california_llc_certificate cd t ≠
      generate_california_llc_certificate cd t' ∧
    (∀ (isJson : Bool) (raw : CompanyFormation),
      upperStr raw.state_of_formation = "NY" →
      form_company isJson raw t = form_company isJson raw t') := by
  refine ⟨?_, ?_, ?_, ?_, ?_⟩
  case _ =>
    intro heq
    simp only [generate_delaware_articles, List.cons.injEq, and_true] at heq
    rcases h with hd | hm
    · exact hd (append_mid_cancel heq.2.2.2.2.2.2.2.2.2.2.1)
    · exact hm (append_last_cancel heq.2.2.2.2.2.2.2.2.2.2.2)
  case _ =>
    intro heq
    simp only [generate_delaware_llc_certificate, List.cons.injEq,
      and_true] at heq
    rcases h with hd | hm
    · exact hd (append_mid_cancel heq.2.2.2.2.2.2.2.2.2.2.1)
    · exact hm (append_last_cancel heq.2.2.2.2.2.2.2.2.2.2.2)
  case _ =>
    intro heq
    simp only [generate_california_articles, List.cons.injEq, and_true] at heq
    rcases h with hd | hm
    · exact hd (append_mid_cancel heq.2.2.2.2.2.2.2.2.2.2.1)
    · exact hm (append_last_cancel heq.2.2.2.2.2.2.2.2.2.2.2)
  case _ =>
    intro heq
    simp only [generate_california_llc_certificate, List.cons.injEq,
      and_true] at heq
    rcases h with hd | hm
    · exact hd (append_mid_cancel heq.2.2.2.2.2.2.2.2.1)
    · exact hm (append_last_cancel heq.2.2.2.2.2.2.2.2.2)
  case _ =>
    intro isJson raw hNY
    cases hval : validateFormation (if isJson then raw else formExtract raw) with
    | error e => rw [form_company, hval, form_company, hval]
    | ok cd =>
      obtain ⟨hcd, -, -, -⟩ := validateFormation_ok hval
      have hstate : cd.state_of_formation = "NY" := by
        rw [hcd]
        have hh : (if isJson then raw else formExtract raw).state_of_formation =
            raw.state_of_formation := by cases isJson <;> rfl
        show upperStr (if isJson then raw else formExtract raw).state_of_formation = "NY"
        rw [hh, hNY]
      rw [form_company_eq_dispatch hval, form_company_eq_dispatch hval,
        dispatch, dispatch, hstate,
        if_neg (by decide : ¬("NY" : String) = "DE"),
        if_neg (by decide : ¬("NY" : String) = "DE"),
        if_neg (by decide : ¬("NY" : String) = "CA"),
        if_neg (by decide : ¬("NY" : String) = "CA"),
        if_pos (by decide : ("NY" : String) = "NY")]

/-- C10 (witness): the theorem applied to a concrete request and the two
fixed clocks. -/
theorem date_in_de_ca_documents_only_witness :
    generate_delaware_articles deInput clock1 ≠
      generate_delaware_articles deInput clock2 :=
  (date_in_de_ca_documents_only deInput clock1 clock2 (Or.inl (by decide))).1

end CompanyServer
